import Mathlib

/-!
Verification of the MySQL monitoring utility and the trailing-space scanner
of the rest-base repository.

The monitor (`MySQLMonitor` class) tracks deprecation warnings and slow
queries; the scanner script walks string columns of a schema and counts rows
whose stored value differs from its trimmed value.

Shallow embedding conventions:
* JS arrays become `List`; `push` becomes append at the right end.
* Fallible database calls (`connection.query`) are modelled by `Except`
  values supplied as inputs: `.error` is a thrown error, `.ok` a result set.
* Timestamps (`new Date().toISOString()`) are threaded in as an explicit
  `String` argument, since their value never influences control flow.
* JS numbers used as durations are modelled as `Nat`; the one float
  division (the slow-query average) is modelled exactly in `ℚ`.
-/

namespace MySQLMonitor

/-- Shape of one row of `SHOW WARNINGS`: `{Level, Code, Message}`. -/
structure RawWarning where
  Level : String
  Code : Nat
  Message : String
deriving BEq, DecidableEq, Repr

/-- The `warningData` object built in `checkWarnings`. -/
structure WarningData where
  timestamp : String
  level : String
  code : Nat
  message : String
  query : String
  executionTime : Nat
deriving BEq, DecidableEq, Repr

/-- An entry of `this.slowQueries`. -/
structure SlowQueryData where
  timestamp : String
  query : String
  executionTime : Nat
deriving BEq, DecidableEq, Repr

/-- The `this.options` object after the constructor ran. -/
structure MonitorOptions where
  logWarnings : Bool
  trackSlowQueries : Bool
  slowQueryThreshold : Nat
deriving BEq, DecidableEq, Repr

/-- The constructor:
`this.options = { logWarnings: options.logWarnings !== false,
trackSlowQueries: options.trackSlowQueries !== false,
slowQueryThreshold: options.slowQueryThreshold || 1000, ...options }`.
The caller-supplied `options` object is modelled by three `Option` fields
(a key is present or absent).  The `...options` spread comes last, so any
key present in `options` overrides the defaulted value computed before it;
the `|| 1000` default therefore only survives when the key is absent
(an absent key reads as `undefined`, which is falsy). -/
def mkOptions (logWarnings? trackSlowQueries? : Option Bool)
    (slowQueryThreshold? : Option Nat) : MonitorOptions :=
  let defaulted : MonitorOptions :=
    { logWarnings := logWarnings? ≠ some false
      trackSlowQueries := trackSlowQueries? ≠ some false
      slowQueryThreshold :=
        if slowQueryThreshold?.getD 0 = 0 then 1000 else slowQueryThreshold?.getD 0 }
  { logWarnings := logWarnings?.getD defaulted.logWarnings
    trackSlowQueries := trackSlowQueries?.getD defaulted.trackSlowQueries
    slowQueryThreshold := slowQueryThreshold?.getD defaulted.slowQueryThreshold }

/-- `new MySQLMonitor()` with no options object. -/
def defaultOptions : MonitorOptions := mkOptions none none none

/-- The three mutable arrays of a `MySQLMonitor` instance. -/
structure MonitorState where
  warnings : List WarningData
  deprecationWarnings : List WarningData
  slowQueries : List SlowQueryData
deriving BEq, DecidableEq, Repr

/-- The constructor initialises all three arrays to `[]`. -/
def initialState : MonitorState :=
  { warnings := [], deprecationWarnings := [], slowQueries := [] }

/-- Model of JS `s.toLowerCase()`: lower-case every character.  (All
keywords and the messages of interest are ASCII, where JS `toLowerCase`
and `Char.toLower` agree.) -/
def strToLower (s : String) : String :=
  ⟨s.data.map Char.toLower⟩

/-- Helper: `l₁` is a prefix of `l₂`, as a boolean (JS has no such helper;
this backs the model of `String.prototype.includes`). -/
def charPrefix : List Char → List Char → Bool
  | [], _ => true
  | _ :: _, [] => false
  | a :: as, b :: bs => a = b && charPrefix as bs

/-- Model of JS `s.includes(sub)`: `sub` occurs contiguously in `s`. -/
def strIncludes (s sub : String) : Bool :=
  (List.range (s.data.length + 1)).any (fun i => charPrefix sub.data (s.data.drop i))

/-- The fixed keyword list of `isDeprecationWarning`. -/
def deprecationKeywords : List String :=
  ["deprecated", "will be removed", "is obsolete", "no longer supported",
   "authentication_string"]

/-- `isDeprecationWarning(warning)`:
`const message = warning.Message.toLowerCase();`
`return deprecationKeywords.some(keyword => message.includes(keyword));` -/
def isDeprecationWarning (warning : RawWarning) : Bool :=
  let message := strToLower warning.Message
  deprecationKeywords.any (fun keyword => strIncludes message keyword)

/-- The `warningData` object literal built inside the `forEach`. -/
def mkWarningData (ts : String) (warning : RawWarning) (queryText : String)
    (executionTime : Nat) : WarningData :=
  { timestamp := ts
    level := warning.Level
    code := warning.Code
    message := warning.Message
    query := queryText
    executionTime := executionTime }

/-- The body of the `warnings.forEach(...)` callback in `checkWarnings`:
push `warningData` onto `this.warnings`, and also onto
`this.deprecationWarnings` when `isDeprecationWarning` holds.
(Logging has no effect on state and is omitted.) -/
def recordOne (ts queryText : String) (executionTime : Nat) (s : MonitorState)
    (warning : RawWarning) : MonitorState :=
  let warningData := mkWarningData ts warning queryText executionTime
  let s1 := { s with warnings := s.warnings ++ [warningData] }
  if isDeprecationWarning warning then
    { s1 with deprecationWarnings := s1.deprecationWarnings ++ [warningData] }
  else s1

/-- The `warnings.forEach(...)` loop of `checkWarnings`.  (The
`if (warnings && warnings.length > 0)` guard is a no-op for the empty
list, so folding over the list models it exactly.) -/
def recordWarnings (st : MonitorState) (ts : String) (warnings : List RawWarning)
    (queryText : String) (executionTime : Nat) : MonitorState :=
  warnings.foldl (recordOne ts queryText executionTime) st

/-- `async checkWarnings(connection, queryText, executionTime)`.
The `connection.query('SHOW WARNINGS')` call is modelled by the
`showWarningsResult` input; the surrounding `try { ... } catch (error)`
means a thrown error leaves the state unchanged (the catch only logs).
Note the slow-query push sits inside the same `try`, after the query. -/
def checkWarnings (opts : MonitorOptions) (st : MonitorState) (ts : String)
    (showWarningsResult : Except String (List RawWarning))
    (queryText : String) (executionTime : Nat) : MonitorState :=
  match showWarningsResult with
  | .error _ => st
  | .ok warnings =>
    let st1 := recordWarnings st ts warnings queryText executionTime
    if opts.trackSlowQueries && decide (opts.slowQueryThreshold < executionTime) then
      { st1 with
        slowQueries := st1.slowQueries ++
          [{ timestamp := ts, query := queryText, executionTime := executionTime }] }
    else st1

/-- `getStats()`; the float division is modelled exactly in `ℚ`. -/
structure Stats where
  totalWarnings : Nat
  deprecationWarnings : Nat
  slowQueries : Nat
  avgSlowQueryTime : ℚ
deriving DecidableEq, Repr

/-- `getStats()`:
avg is `this.slowQueries.reduce((sum, q) => sum + q.executionTime, 0) /
this.slowQueries.length` when the list is non-empty, else `0`. -/
def getStats (st : MonitorState) : Stats :=
  { totalWarnings := st.warnings.length
    deprecationWarnings := st.deprecationWarnings.length
    slowQueries := st.slowQueries.length
    avgSlowQueryTime :=
      if 0 < st.slowQueries.length then
        (st.slowQueries.foldl (fun sum q => sum + (q.executionTime : ℚ)) 0) /
          (st.slowQueries.length : ℚ)
      else 0 }

/-- `clear()`: resets the three arrays. -/
def clear (_st : MonitorState) : MonitorState :=
  { warnings := [], deprecationWarnings := [], slowQueries := [] }

/-- One externally triggered mutation of a monitor instance: either a
`checkWarnings` call (with the outcome of its `SHOW WARNINGS` query) or a
`clear()` call. -/
inductive MonitorOp where
  | checkW (ts : String) (res : Except String (List RawWarning))
      (queryText : String) (executionTime : Nat)
  | clearOp
deriving Repr

/-- Apply one operation to the state. -/
def applyOp (opts : MonitorOptions) (st : MonitorState) : MonitorOp → MonitorState
  | .checkW ts res q d => checkWarnings opts st ts res q d
  | .clearOp => clear st

/-- States reachable from a fresh monitor by a sequence of operations. -/
def runOps (opts : MonitorOptions) (ops : List MonitorOp) : MonitorState :=
  ops.foldl (applyOp opts) initialState

/-- `createMonitoringMiddleware`'s wrapped `monitoredQuery`:
run the original query (its outcome is the `origResult` input), measure the
duration, call `monitor.checkWarnings` on both the success and the failure
path, then return the original result or re-throw the original error.
`checkWarnings` is total in this model because its body is wrapped in
`try/catch` in the source; the outcome of its internal `SHOW WARNINGS`
query is the `showWarningsResult` input. -/
def monitoredQuery {Err Res : Type} (opts : MonitorOptions) (st : MonitorState)
    (origResult : Except Err Res) (showWarningsResult : Except String (List RawWarning))
    (ts : String) (queryText : String) (executionTime : Nat) :
    Except Err Res × MonitorState :=
  match origResult with
  | .ok result =>
    let st1 := checkWarnings opts st ts showWarningsResult queryText executionTime
    (.ok result, st1)
  | .error error =>
    let st1 := checkWarnings opts st ts showWarningsResult queryText executionTime
    (.error error, st1)

end MySQLMonitor

namespace ScanScript

/-- Strip leading space characters (MySQL `TRIM` removes `' '` only). -/
def dropLeadingSpaces : List Char → List Char
  | [] => []
  | c :: cs => if c = ' ' then dropLeadingSpaces cs else c :: cs

/-- MySQL `TRIM(s)`: remove leading and trailing space characters. -/
def sqlTrim (s : String) : String :=
  ⟨dropLeadingSpaces ((dropLeadingSpaces s.data.reverse).reverse)⟩

/-- Model of JS `s.trim()`: strip leading and trailing whitespace. -/
def jsTrim (s : String) : String :=
  ⟨((s.data.dropWhile Char.isWhitespace).reverse.dropWhile Char.isWhitespace).reverse⟩

/-- One row returned by the per-column row query of
`MySQLMonitor.scanTrailingSpaces` (`id`, the value, `CHAR_LENGTH`,
`LENGTH`). -/
structure ScanRow where
  id : Nat
  value : String
  charLen : Nat
  byteLen : Nat
deriving BEq, DecidableEq, Repr

/-- An element of the `rows` array in a `scanTrailingSpaces` result entry. -/
structure TrailingRow where
  id : Nat
  value : String
  charLength : Nat
  byteLength : Nat
  hasTrailingSpaces : Bool
deriving BEq, DecidableEq, Repr

/-- One entry pushed onto `results` by `scanTrailingSpaces`. -/
structure TrailingSpaceResult where
  table : String
  column : String
  rowsAffected : Nat
  rows : List TrailingRow
deriving BEq, DecidableEq, Repr

/-- `MySQLMonitor.scanTrailingSpaces(connection, tableName, columns)`:
for each column run the row query (modelled by `conn column`, an `Except`),
push a result entry when rows came back; the per-column `try/catch` turns a
thrown error into a log line and moves on to the next column.
`row.hasTrailingSpaces` is `row[column] !== row[column].trim()` with JS
`trim` (all whitespace), modelled by `jsTrim`. -/
def scanTrailingSpaces (conn : String → Except String (List ScanRow))
    (tableName : String) (columns : List String) : List TrailingSpaceResult :=
  columns.foldl
    (fun results column =>
      match conn column with
      | .error _ => results
      | .ok rows =>
        if 0 < rows.length then
          results ++
            [{ table := tableName
               column := column
               rowsAffected := rows.length
               rows := rows.map (fun row =>
                 { id := row.id
                   value := row.value
                   charLength := row.charLen
                   byteLength := row.byteLen
                   hasTrailingSpaces := row.value != jsTrim row.value }) }]
        else results)
    []

/-- Result object of `scanColumn` in `scan-trailing-spaces.js`. -/
structure ColumnScanResult where
  table : String
  column : String
  totalRows : Nat
  trailingSpaceCount : Nat
deriving BEq, DecidableEq, Repr

/-- `scanColumn(connection, tableName, columnName)`: the aggregate query
`SELECT COUNT(*), SUM(CASE WHEN col != TRIM(col) THEN 1 ELSE 0 END)
FROM t WHERE col IS NOT NULL`, evaluated against the column's stored
values (`none` = SQL NULL).  String comparison is NO PAD (trailing spaces
significant), the collation this scanner targets. -/
def scanColumn (colData : List (Option String)) (tableName columnName : String) :
    ColumnScanResult :=
  let nonNull := colData.filterMap id
  { table := tableName
    column := columnName
    totalRows := nonNull.length
    trailingSpaceCount := (nonNull.filter (fun v => v != sqlTrim v)).length }

/-- The inner column loop of `scanDatabase`: for each column call
`scanColumn` (modelled by `scan t c`, an `Except` since the query can
throw), and when `result.trailingSpaceCount > 0` push the result and add
the count to `totalIssues`.  There is no per-column `try/catch` here: an
error propagates out of the loop (into `scanDatabase`'s single `catch`). -/
def scanColumnsInTable (scan : String → String → Except String ColumnScanResult)
    (t : String) : List String → List ColumnScanResult × Nat →
    Except String (List ColumnScanResult × Nat)
  | [], acc => .ok acc
  | c :: rest, acc =>
    match scan t c with
    | .error e => .error e
    | .ok result =>
      if 0 < result.trailingSpaceCount then
        scanColumnsInTable scan t rest
          (acc.1 ++ [result], acc.2 + result.trailingSpaceCount)
      else scanColumnsInTable scan t rest acc

/-- The outer table loop of `scanDatabase`: `getStringColumns` per table
(modelled by `colsOf`, an `Except`), then the column loop; any error
propagates. -/
def scanTables (colsOf : String → Except String (List String))
    (scan : String → String → Except String ColumnScanResult) :
    List String → List ColumnScanResult × Nat →
    Except String (List ColumnScanResult × Nat)
  | [], acc => .ok acc
  | t :: rest, acc =>
    match colsOf t with
    | .error e => .error e
    | .ok cols =>
      match scanColumnsInTable scan t cols acc with
      | .error e => .error e
      | .ok acc1 => scanTables colsOf scan rest acc1

/-- Reference list for the report theorems: the `scanColumn` results of
every (table, column) pair of a full scan, in scan order. -/
def allColumnResults (scan : String → String → ColumnScanResult)
    (cols : String → List String) (tablesList : List String) :
    List ColumnScanResult :=
  (tablesList.map (fun t => (cols t).map (scan t))).flatten

/-- The remediation line printed per affected column:
UPDATE `table` SET `col` = TRIM(`col`); -/
def trimStatement (r : ColumnScanResult) : String :=
  "UPDATE `" ++ r.table ++ "` SET `" ++ r.column ++ "` = TRIM(`" ++ r.column ++ "`);"

/-- Observable outcome of one `scanDatabase()` run: the process exit code,
the remediation statements printed, the per-column report entries, and the
`totalIssues` counter. -/
structure ScanRunOutcome where
  exitCode : Nat
  remediation : List String
  report : List ColumnScanResult
  totalIssues : Nat
deriving BEq, DecidableEq, Repr

/-- `scanDatabase()`: fail fast (`process.exit(1)`) when `DB_NAME` is
empty; any error thrown while connecting, enumerating tables or scanning
lands in the single `catch`, which calls `process.exit(1)`.  On normal
completion the summary is printed — with the trim statements when
`totalIssues > 0` — and the process ends with the implicit exit code 0 in
BOTH cases (no `process.exit` call exists on the success path). -/
def scanDatabase (dbName : String) (tables : Except String (List String))
    (colsOf : String → Except String (List String))
    (scan : String → String → Except String ColumnScanResult) : ScanRunOutcome :=
  if dbName = "" then
    { exitCode := 1, remediation := [], report := [], totalIssues := 0 }
  else
    match tables with
    | .error _ => { exitCode := 1, remediation := [], report := [], totalIssues := 0 }
    | .ok ts =>
      match scanTables colsOf scan ts ([], 0) with
      | .error _ => { exitCode := 1, remediation := [], report := [], totalIssues := 0 }
      | .ok (results, totalIssues) =>
        if 0 < totalIssues then
          { exitCode := 0
            remediation := results.map trimStatement
            report := results
            totalIssues := totalIssues }
        else
          { exitCode := 0, remediation := [], report := results, totalIssues := totalIssues }


/-- C7 amended: on completion of a full scan (database name supplied,
table enumeration and every column query succeed) the scanner exits with
code 0 BOTH when no symptoms were found and when symptoms were found; in
the latter case it prints one trim remediation statement per affected
column.  A nonzero exit happens only for a missing database name or a
thrown error. -/
theorem scanDatabase_completion (dbName : String) (tablesList : List String)
    (colsOf : String → Except String (List String))
    (scan : String → String → Except String ColumnScanResult)
    (results : List ColumnScanResult) (total : Nat)
    (hdb : dbName ≠ "")
    (hok : scanTables colsOf scan tablesList ([], 0) = .ok (results, total)) :
    (scanDatabase dbName (.ok tablesList) colsOf scan).exitCode = 0 ∧
    (scanDatabase dbName (.ok tablesList) colsOf scan).remediation
      = (if 0 < total then results.map trimStatement else []) := by
  unfold scanDatabase
  rw [if_neg hdb]
  dsimp only
  rw [hok]
  by_cases h : 0 < total
  · simp [h]
  · simp [h]

/-- Witness for C7 (amended): one table, one column, 3 affected rows —
exit code 0 and one trim statement. -/
theorem scanDatabase_completion_witness :
    (scanDatabase "mydb" (.ok ["t"]) (fun _ => .ok ["c"])
        (fun _ _ => .ok ⟨"t", "c", 10, 3⟩)).exitCode = 0 ∧
    (scanDatabase "mydb" (.ok ["t"]) (fun _ => .ok ["c"])
        (fun _ _ => .ok ⟨"t", "c", 10, 3⟩)).remediation
      = (if 0 < 3 then [ColumnScanResult.mk "t" "c" 10 3].map trimStatement
         else []) := by
  exact scanDatabase_completion "mydb" ["t"] _ _ [⟨"t", "c", 10, 3⟩] 3
    (by decide) rfl

/-- C7 counterexample: a completed scan that found 3 rows with trailing
spaces exits with code 0 (the success path of `scanDatabase` never calls
`process.exit`), contradicting the claimed nonzero exit; the remediation
trim statement is printed nonetheless. -/
theorem scanDatabase_symptoms_zero_exit :
    scanDatabase "mydb" (.ok ["t"]) (fun _ => .ok ["c"])
        (fun _ _ => .ok ⟨"t", "c", 10, 3⟩)
      = { exitCode := 0,
          remediation := ["UPDATE `t` SET `c` = TRIM(`c`);"],
          report := [⟨"t", "c", 10, 3⟩],
          totalIssues := 3 } := by
  rfl

end ScanScript

namespace MySQLMonitor

/-- `recordOne` never touches the slow-query list. -/
theorem recordOne_slowQueries (ts q : String) (d : Nat) (s : MonitorState)
    (w : RawWarning) : (recordOne ts q d s w).slowQueries = s.slowQueries := by
  unfold recordOne
  by_cases h : isDeprecationWarning w = true <;> simp [h]

/-- `recordWarnings` never touches the slow-query list. -/
theorem recordWarnings_slowQueries (ts q : String) (d : Nat) :
    ∀ (ws : List RawWarning) (s : MonitorState),
      (recordWarnings s ts ws q d).slowQueries = s.slowQueries := by
  intro ws
  induction ws with
  | nil => intro s; rfl
  | cons w rest ih =>
    intro s
    unfold recordWarnings
    rw [List.foldl_cons]
    have h1 := ih (recordOne ts q d s w)
    unfold recordWarnings at h1
    rw [h1, recordOne_slowQueries]

/-- C1: the wrapped query capability is transparent — for every invocation
the wrapper returns exactly the underlying result when the underlying
query succeeds and re-raises exactly the original error when it fails,
whatever the follow-up `checkWarnings` step does (its internal
`SHOW WARNINGS` outcome, `showWarningsResult`, may itself be an error and
is swallowed inside `checkWarnings`, so it never changes the outcome). -/
theorem monitoredQuery_transparent {Err Res : Type} (opts : MonitorOptions)
    (st : MonitorState) (origResult : Except Err Res)
    (showWarningsResult : Except String (List RawWarning))
    (ts queryText : String) (executionTime : Nat) :
    (monitoredQuery opts st origResult showWarningsResult ts queryText
        executionTime).1 = origResult := by
  cases origResult <;> rfl

/-- C10: with no `slowQueryThreshold` key the effective threshold is 1000;
when a threshold value is supplied (including 0, which the trailing
`...options` spread preserves over the `|| 1000` default), that supplied
value is the effective threshold. -/
theorem slowQueryThreshold_effective (lw tsq : Option Bool) (t : Nat) :
    (mkOptions lw tsq none).slowQueryThreshold = 1000 ∧
    (mkOptions lw tsq (some t)).slowQueryThreshold = t := by
  exact ⟨rfl, rfl⟩

/-- C3: with slow-query tracking enabled and the `SHOW WARNINGS` query
succeeding, a `SlowQueryData` record is appended iff the execution time is
strictly greater than the configured threshold; a duration equal to the
threshold leaves the slow-query list unchanged. -/
theorem checkWarnings_slowQuery_iff (opts : MonitorOptions) (st : MonitorState)
    (ts : String) (warnings : List RawWarning) (queryText : String)
    (executionTime : Nat) (htrack : opts.trackSlowQueries = true) :
    (checkWarnings opts st ts (.ok warnings) queryText executionTime).slowQueries
      = if opts.slowQueryThreshold < executionTime
        then st.slowQueries ++ [⟨ts, queryText, executionTime⟩]
        else st.slowQueries := by
  unfold checkWarnings
  by_cases h : opts.slowQueryThreshold < executionTime
  · simp [htrack, h, recordWarnings_slowQueries]
  · simp [htrack, h, recordWarnings_slowQueries]

/-- Boundary witness for C3 at the default threshold 1000: a 1000 ms query
is not recorded, a 1001 ms query is. -/
theorem checkWarnings_slowQuery_iff_witness :
    (checkWarnings defaultOptions initialState "t1" (.ok []) "q" 1000).slowQueries
        = initialState.slowQueries ∧
    (checkWarnings defaultOptions initialState "t1" (.ok []) "q" 1001).slowQueries
        = initialState.slowQueries ++ [⟨"t1", "q", 1001⟩] := by
  constructor
  · rw [checkWarnings_slowQuery_iff defaultOptions initialState "t1" [] "q" 1000 rfl]
    norm_num [defaultOptions, mkOptions]
  · rw [checkWarnings_slowQuery_iff defaultOptions initialState "t1" [] "q" 1001 rfl]
    norm_num [defaultOptions, mkOptions]

/-- C9 counterexample: calling `checkWarnings` (the warning-recording
operation of the code, which the claim's code source names) with an empty
warning sequence is NOT a no-op on all aggregator state: with the default
options (tracking on, threshold 1000) and a 1500 ms execution time, the
slow-query log changes even though the warning sequence is empty. -/
theorem checkWarnings_empty_not_noop :
    (checkWarnings defaultOptions initialState "t0" (.ok []) "SELECT 1"
        1500).slowQueries ≠ initialState.slowQueries := by
  decide

/-- C9 amended: with an empty warning sequence the `forEach` recording loop
is a full no-op and `checkWarnings` leaves the warning log and the
deprecation log unchanged; only the slow-query log may change, and it does
so exactly when tracking is enabled and the execution time exceeds the
threshold — independent of the (empty) warning sequence. -/
theorem checkWarnings_empty_warnings (opts : MonitorOptions) (st : MonitorState)
    (ts queryText : String) (executionTime : Nat) :
    recordWarnings st ts [] queryText executionTime = st ∧
    (checkWarnings opts st ts (.ok []) queryText executionTime).warnings
      = st.warnings ∧
    (checkWarnings opts st ts (.ok []) queryText executionTime).deprecationWarnings
      = st.deprecationWarnings ∧
    (checkWarnings opts st ts (.ok []) queryText executionTime).slowQueries
      = (if opts.trackSlowQueries ∧ opts.slowQueryThreshold < executionTime
         then st.slowQueries ++ [⟨ts, queryText, executionTime⟩]
         else st.slowQueries) := by
  refine ⟨rfl, ?_, ?_, ?_⟩ <;>
    · unfold checkWarnings
      by_cases ht : opts.trackSlowQueries = true <;>
        by_cases h : opts.slowQueryThreshold < executionTime <;>
          simp [ht, h, recordWarnings]

/-- Sum out the `reduce((sum, q) => sum + q.executionTime, 0)` fold. -/
theorem foldl_executionTime_sum :
    ∀ (l : List SlowQueryData) (a : ℚ),
      l.foldl (fun sum q => sum + (q.executionTime : ℚ)) a
        = a + ((l.map (fun q => (q.executionTime : ℚ))).sum) := by
  intro l
  induction l with
  | nil => intro a; simp
  | cons q rest ih =>
    intro a
    rw [List.foldl_cons, ih, List.map_cons, List.sum_cons]
    ring

/-- C5: `getStats().avgSlowQueryTime` is 0 when the slow-query list is
empty, and otherwise is the arithmetic mean (sum of the recorded execution
times divided by their number, computed exactly in `ℚ`). -/
theorem getStats_avgSlowQueryTime (st : MonitorState) :
    (st.slowQueries = [] → (getStats st).avgSlowQueryTime = 0) ∧
    (st.slowQueries ≠ [] →
      (getStats st).avgSlowQueryTime
        = ((st.slowQueries.map (fun q => (q.executionTime : ℚ))).sum)
            / (st.slowQueries.length : ℚ)) := by
  constructor
  · intro h
    simp [getStats, h]
  · intro h
    have hlen : 0 < st.slowQueries.length := List.length_pos.2 h
    simp only [getStats, hlen, if_pos]
    rw [foldl_executionTime_sum]
    simp

/-- Witness for C5: two slow queries of 1000 and 2000 ms average to 1500. -/
theorem getStats_avgSlowQueryTime_witness :
    (getStats ⟨[], [], [⟨"a", "q1", 1000⟩, ⟨"b", "q2", 2000⟩]⟩).avgSlowQueryTime
      = 1500 := by
  have h := (getStats_avgSlowQueryTime
      ⟨[], [], [⟨"a", "q1", 1000⟩, ⟨"b", "q2", 2000⟩]⟩).2 (by decide)
  rw [h]
  norm_num

/-- The boolean prefix test agrees with `List.IsPrefix`. -/
theorem charPrefix_iff : ∀ (l₁ l₂ : List Char),
    charPrefix l₁ l₂ = true ↔ l₁ <+: l₂ := by
  intro l₁
  induction l₁ with
  | nil =>
    intro l₂
    simp [charPrefix]
  | cons a as ih =>
    intro l₂
    cases l₂ with
    | nil => simp [charPrefix]
    | cons b bs => simp [charPrefix, ih bs, List.cons_prefix_cons]

/-- The model of JS `includes` agrees with `List.IsInfix`: `sub` occurs in
`s` iff `sub.data` is a contiguous sublist of `s.data`. -/
theorem strIncludes_iff (s sub : String) :
    strIncludes s sub = true ↔ sub.data <:+: s.data := by
  unfold strIncludes
  rw [List.any_eq_true]
  constructor
  · rintro ⟨i, _, hpre⟩
    rw [charPrefix_iff] at hpre
    obtain ⟨t, ht⟩ := hpre
    exact ⟨s.data.take i, t, by rw [List.append_assoc, ht, List.take_append_drop]⟩
  · rintro ⟨p, t, h⟩
    refine ⟨p.length, ?_, ?_⟩
    · rw [List.mem_range]
      have hle : p.length ≤ s.data.length := by
        rw [← h]
        simp [List.length_append]
      omega
    · rw [charPrefix_iff]
      refine ⟨t, ?_⟩
      rw [← h, List.append_assoc, List.drop_left]

/-- C2: `isDeprecationWarning` returns true iff the message contains at
least one of the five fixed keywords as a case-insensitive substring
(the message is lower-cased, the keywords are lower-case literals);
messages containing none of them yield false, by the same equivalence. -/
theorem isDeprecationWarning_iff (w : RawWarning) :
    isDeprecationWarning w = true ↔
      ∃ k ∈ deprecationKeywords, k.data <:+: (strToLower w.Message).data := by
  unfold isDeprecationWarning
  rw [List.any_eq_true]
  constructor
  · rintro ⟨k, hk, h⟩
    exact ⟨k, hk, (strIncludes_iff _ _).1 h⟩
  · rintro ⟨k, hk, h⟩
    exact ⟨k, hk, (strIncludes_iff _ _).2 h⟩

/-- `recordOne` preserves "every deprecation-log entry is in the warning
log": the entry is pushed onto the warning log unconditionally and onto the
deprecation log only conditionally. -/
theorem recordOne_depSubset (ts q : String) (d : Nat) (s : MonitorState)
    (w : RawWarning) (h : ∀ x ∈ s.deprecationWarnings, x ∈ s.warnings) :
    ∀ x ∈ (recordOne ts q d s w).deprecationWarnings,
      x ∈ (recordOne ts q d s w).warnings := by
  intro x hx
  unfold recordOne at hx ⊢
  by_cases hd : isDeprecationWarning w = true
  · simp only [hd, if_pos, List.mem_append, List.mem_singleton] at hx ⊢
    rcases hx with hx | hx
    · exact Or.inl (h x hx)
    · exact Or.inr hx
  · simp only [hd] at hx ⊢
    simp only [if_neg, Bool.false_eq_true, not_false_iff] at hx ⊢
    simp only [List.mem_append, List.mem_singleton]
    exact Or.inl (h x hx)

/-- `recordWarnings` preserves the deprecation-subset invariant. -/
theorem recordWarnings_depSubset (ts q : String) (d : Nat) :
    ∀ (ws : List RawWarning) (s : MonitorState),
      (∀ x ∈ s.deprecationWarnings, x ∈ s.warnings) →
      ∀ x ∈ (recordWarnings s ts ws q d).deprecationWarnings,
        x ∈ (recordWarnings s ts ws q d).warnings := by
  intro ws
  induction ws with
  | nil => intro s h; exact h
  | cons w rest ih =>
    intro s h
    unfold recordWarnings
    rw [List.foldl_cons]
    exact ih (recordOne ts q d s w) (recordOne_depSubset ts q d s w h)

/-- `checkWarnings` preserves the deprecation-subset invariant. -/
theorem checkWarnings_depSubset (opts : MonitorOptions) (st : MonitorState)
    (ts : String) (res : Except String (List RawWarning)) (q : String) (d : Nat)
    (h : ∀ x ∈ st.deprecationWarnings, x ∈ st.warnings) :
    ∀ x ∈ (checkWarnings opts st ts res q d).deprecationWarnings,
      x ∈ (checkWarnings opts st ts res q d).warnings := by
  cases res with
  | error e => exact h
  | ok ws =>
    unfold checkWarnings
    by_cases hb : (opts.trackSlowQueries && decide (opts.slowQueryThreshold < d)) = true
    · simp only [hb, if_pos]
      exact recordWarnings_depSubset ts q d ws st h
    · simp only [hb]
      simp only [if_neg, Bool.false_eq_true, not_false_iff]
      exact recordWarnings_depSubset ts q d ws st h

/-- Every operation sequence preserves the deprecation-subset invariant. -/
theorem foldl_applyOp_depSubset (opts : MonitorOptions) :
    ∀ (ops : List MonitorOp) (st : MonitorState),
      (∀ x ∈ st.deprecationWarnings, x ∈ st.warnings) →
      ∀ x ∈ (ops.foldl (applyOp opts) st).deprecationWarnings,
        x ∈ (ops.foldl (applyOp opts) st).warnings := by
  intro ops
  induction ops with
  | nil => intro st h; exact h
  | cons op rest ih =>
    intro st h
    rw [List.foldl_cons]
    apply ih
    cases op with
    | checkW ts res q d => exact checkWarnings_depSubset opts st ts res q d h
    | clearOp => intro x hx; cases hx

/-- C4: at every reachable aggregator state (any sequence of
`checkWarnings` and `clear` operations from a fresh monitor) every record
of the deprecation log is also in the general warning log; and recording
the single deprecation-class warning
"The authentication_string column is deprecated" from a fresh monitor puts
its record exactly once in each of the two logs. -/
theorem deprecationLog_subset_and_once :
    (∀ (opts : MonitorOptions) (ops : List MonitorOp) (wd : WarningData),
        wd ∈ (runOps opts ops).deprecationWarnings →
        wd ∈ (runOps opts ops).warnings) ∧
    ((checkWarnings defaultOptions initialState "t0"
          (.ok [⟨"Warning", 1287, "The authentication_string column is deprecated"⟩])
          "SELECT 1" 5).warnings.count
        (mkWarningData "t0"
          ⟨"Warning", 1287, "The authentication_string column is deprecated"⟩
          "SELECT 1" 5) = 1 ∧
      (checkWarnings defaultOptions initialState "t0"
          (.ok [⟨"Warning", 1287, "The authentication_string column is deprecated"⟩])
          "SELECT 1" 5).deprecationWarnings.count
        (mkWarningData "t0"
          ⟨"Warning", 1287, "The authentication_string column is deprecated"⟩
          "SELECT 1" 5) = 1) := by
  refine ⟨?_, by decide, by decide⟩
  intro opts ops wd hmem
  exact foldl_applyOp_depSubset opts ops initialState (fun x hx => by cases hx) wd hmem

/-- Witness for C4: a concrete reachable state (one `checkWarnings` call
recording the deprecation warning) at which the subset invariant is
instantiated and its membership hypothesis discharged by evaluation. -/
theorem deprecationLog_subset_witness :
    (mkWarningData "t0"
        ⟨"Warning", 1287, "The authentication_string column is deprecated"⟩
        "SELECT 1" 5)
      ∈ (runOps defaultOptions
          [.checkW "t0"
            (.ok [⟨"Warning", 1287, "The authentication_string column is deprecated"⟩])
            "SELECT 1" 5]).warnings := by
  apply deprecationLog_subset_and_once.1 defaultOptions _ _
  exact List.Mem.head _

end MySQLMonitor

namespace ScanScript

/-- Folding with pointwise-equal step functions gives equal results. -/
theorem foldl_congr_fn {α β : Type} (f g : β → α → β) (l : List α)
    (h : ∀ b, ∀ a ∈ l, f b a = g b a) : ∀ b, l.foldl f b = l.foldl g b := by
  induction l with
  | nil => intro b; rfl
  | cons x xs ih =>
    intro b
    rw [List.foldl_cons, List.foldl_cons, h b x (List.mem_cons_self x xs)]
    exact ih (fun b a ha => h b a (List.mem_cons_of_mem x ha)) _

/-- C6 amended: in `MySQLMonitor.scanTrailingSpaces` a failure of one
column's query does not abort the scan — the run behaves exactly as if the
failed column had returned zero rows, so every other column still produces
its correct result; in particular the failed column contributes NO entry
(it is indistinguishable from a zero-hit column, there is no failure
entry).  (In `scanDatabase` of the scanner script a column failure instead
aborts the whole scan; see the counterexample.) -/
theorem scanTrailingSpaces_errorColumn
    (conn : String → Except String (List ScanRow)) (t : String)
    (cols : List String) (c e : String) (h : conn c = .error e) :
    scanTrailingSpaces conn t cols
      = scanTrailingSpaces (fun x => if x = c then .ok [] else conn x) t cols := by
  unfold scanTrailingSpaces
  apply foldl_congr_fn
  intro results column _
  by_cases hc : column = c
  · subst hc
    rw [h]
    simp
  · simp [hc]

/-- Witness for C6 (amended): a two-column run where column "a" fails and
column "b" returns one offending row equals the run where "a" returns no
rows. -/
theorem scanTrailingSpaces_errorColumn_witness :
    scanTrailingSpaces
        (fun x => if x = "a" then .error "denied" else .ok [⟨1, "x ", 2, 2⟩])
        "users" ["a", "b"]
      = scanTrailingSpaces
          (fun x => if x = "a" then Except.ok []
                    else (fun y => if y = "a" then Except.error "denied"
                                   else Except.ok [⟨1, "x ", 2, 2⟩]) x)
          "users" ["a", "b"] := by
  exact scanTrailingSpaces_errorColumn _ "users" ["a", "b"] "a" "denied" (by simp)

/-- C6 counterexample: with column "a" failing (permission error) and
column "b" having one offending row, the `scanTrailingSpaces` report is
exactly the single "b" entry — the failed column "a" produces no failure
entry, contrary to the claim; and in the scanner script's column loop
(`scanDatabase`) the same failure aborts the scan of the remaining
columns: the loop returns the error instead of any report. -/
theorem scan_failure_no_entry_counterexample :
    (scanTrailingSpaces
        (fun c => if c = "a" then .error "permission denied"
                  else .ok [⟨1, "x ", 2, 2⟩])
        "users" ["a", "b"]
      = [{ table := "users", column := "b", rowsAffected := 1,
           rows := [{ id := 1, value := "x ", charLength := 2, byteLength := 2,
                      hasTrailingSpaces := true }] }])
    ∧ scanColumnsInTable
        (fun _ c => if c = "a" then .error "permission denied"
                    else .ok ⟨"t", c, 10, 3⟩)
        "t" ["a", "b"] ([], 0) = .error "permission denied" := by
  exact ⟨by decide, rfl⟩

end ScanScript

namespace ScanScript

/-- The column loop with every scan succeeding: the accumulated report
gains exactly the nonzero-count results in order, and the issue counter
gains the sum of their counts. -/
theorem scanColumnsInTable_ok (scan : String → String → ColumnScanResult)
    (t : String) :
    ∀ (colsL : List String) (acc : List ColumnScanResult × Nat),
      scanColumnsInTable (fun a b => .ok (scan a b)) t colsL acc
        = .ok (acc.1 ++ (colsL.map (scan t)).filter
                 (fun r => decide (0 < r.trailingSpaceCount)),
               acc.2 + (((colsL.map (scan t)).filter
                 (fun r => decide (0 < r.trailingSpaceCount))).map
                   (fun r => r.trailingSpaceCount)).sum) := by
  intro colsL
  induction colsL with
  | nil =>
    intro acc
    simp [scanColumnsInTable]
  | cons c rest ih =>
    intro acc
    unfold scanColumnsInTable
    dsimp only
    by_cases h : 0 < (scan t c).trailingSpaceCount
    · rw [if_pos h, ih]
      simp [h, List.append_assoc, Nat.add_assoc]
    · rw [if_neg h, ih]
      simp [h]

/-- The table loop with every metadata and scan query succeeding. -/
theorem scanTables_ok (cols : String → List String)
    (scan : String → String → ColumnScanResult) :
    ∀ (tablesList : List String) (acc : List ColumnScanResult × Nat),
      scanTables (fun t => .ok (cols t)) (fun a b => .ok (scan a b)) tablesList acc
        = .ok (acc.1 ++ (allColumnResults scan cols tablesList).filter
                 (fun r => decide (0 < r.trailingSpaceCount)),
               acc.2 + (((allColumnResults scan cols tablesList).filter
                 (fun r => decide (0 < r.trailingSpaceCount))).map
                   (fun r => r.trailingSpaceCount)).sum) := by
  intro tablesList
  induction tablesList with
  | nil =>
    intro acc
    simp [scanTables, allColumnResults]
  | cons t rest ih =>
    intro acc
    unfold scanTables
    dsimp only
    rw [scanColumnsInTable_ok]
    dsimp only
    rw [ih]
    simp [allColumnResults, List.filter_append, List.map_append, List.sum_append,
      List.append_assoc, Nat.add_assoc]

/-- C8: `scanColumn` returns the non-null row count and the count of
non-null rows whose stored value differs from its trimmed value; the full
scan report keeps exactly the columns with a nonzero count (zero-count
columns are omitted), and the reported total-affected-row count equals the
sum of the nonzero per-column counts. -/
theorem scanColumn_and_report_correct (db : String → String → List (Option String))
    (cols : String → List String) (tablesList : List String) :
    (∀ (colData : List (Option String)) (t c : String),
        (scanColumn colData t c).totalRows = (colData.filterMap id).length ∧
        (scanColumn colData t c).trailingSpaceCount
          = ((colData.filterMap id).filter (fun v => v != sqlTrim v)).length) ∧
    scanTables (fun t => .ok (cols t))
        (fun t c => .ok (scanColumn (db t c) t c)) tablesList ([], 0)
      = .ok ((allColumnResults (fun t c => scanColumn (db t c) t c) cols
                tablesList).filter (fun r => decide (0 < r.trailingSpaceCount)),
             (((allColumnResults (fun t c => scanColumn (db t c) t c) cols
                tablesList).filter (fun r => decide (0 < r.trailingSpaceCount))).map
               (fun r => r.trailingSpaceCount)).sum) := by
  refine ⟨fun colData t c => ⟨rfl, rfl⟩, ?_⟩
  rw [scanTables_ok]
  simp

end ScanScript
